import Mathlib

/-!
Verification development for the LangGraph hierarchical agent system
(delegating agent, RAG agent, Chart.js tool, agent graph).

Modelling conventions:
* The Gemini language-model gateway is external: each `model.invoke` call
  site is represented by an `Except String String` oracle value (`.error m`
  models a rejected promise with message `m`, `.ok t` a completion text).
  Prompt construction only feeds the external model, so prompt strings are
  not reproduced; the completion is universally quantified instead.
* The `JSON.parse` of the host runtime is external: it is represented by an
  abstract parser `String → Option α` (`none` models a thrown SyntaxError,
  which the surrounding `try`/`catch` of the source absorbs).
* The Weaviate client is external: a `Store` record holds the two
  tenant-scoped query operations used by the RAG agent, each returning
  `Except String (List RetrievedDoc)` (`.error` models a thrown client
  error, which `retrieveFromWeaviate`/`fetchAllFromWeaviate` re-throw).
* JavaScript `undefined`/`null` object fields are modelled with `Option`;
  the `||`-default idiom of `generateChartConfig` is modelled so that a
  missing field or empty string takes the default while an empty array
  does not (arrays are truthy in JavaScript).
-/

namespace AgentSystem

/-- Output of `analyzeQuery` (src/agents/delegating-agent.js): three routing
booleans plus a free-text reasoning string. -/
structure Decision where
  needsChart : Bool
  needsRAG : Bool
  needsDirect : Bool
  reasoning : String
  deriving DecidableEq, Repr

/-- The JSON object shape `extractChartParams` expects from the model.
Fields are `Option` because the parsed JSON may omit any of them. -/
structure ChartParams where
  chartType : Option String
  title : Option String
  labels : Option (List String)
  data : Option (List Int)
  deriving DecidableEq, Repr

/-- The Chart.js configuration built by `generateChartConfig`
(src/tools/chartjs-tool.js).  `lineStyling` records that the
line-only dataset fields (tension 0.4, fill false) were set — the numeric
tension value is a float and is abstracted to this presence flag;
`scalesBeginAtZero` records that the `scales.y.beginAtZero` option was
added. -/
structure ChartConfig where
  type : String
  labels : List String
  datasetLabel : String
  data : List Int
  backgroundColor : List String
  borderColor : List String
  borderWidth : Nat
  legendPosition : String
  titleDisplay : Bool
  titleText : String
  lineStyling : Bool
  scalesBeginAtZero : Bool
  deriving DecidableEq, Repr

/-- One object returned by the Weaviate queries (properties
`fileId`, `question`, `answer`). -/
structure RetrievedDoc where
  fileId : String
  question : String
  answer : String
  deriving DecidableEq, Repr

/-- One entry of the `references` array built by `ragGenerate`. -/
structure Reference where
  fileId : String
  question : String
  answer : String
  deriving DecidableEq, Repr

/-- The object returned by `ragGenerate` on success. -/
structure RagResult where
  answer : String
  fileIds : List String
  references : List Reference
  deriving DecidableEq, Repr

/-- The response object assembled by `delegateQuery`
(src/agents/delegating-agent.js, result-combination step). -/
structure Response where
  answer : String
  fileIds : List String
  references : List Reference
  chartConfig : Option ChartConfig
  deriving DecidableEq, Repr

/-! ### JSON-region selection

Both `analyzeQuery` and `extractChartParams` run
`response.content.match(/\x7b[\s\S]*\x7d/)` on the completion text.
That regular expression matches from the first opening brace of the text
to the last closing brace (the starred character class is greedy and
matches every character including braces and newlines). -/

/-- Index of the last occurrence of `c` in `cs`, if any. -/
def lastIdxOf (c : Char) (cs : List Char) : Option Nat :=
  match cs.reverse.findIdx? (· = c) with
  | none => none
  | some k => some (cs.length - 1 - k)

/-- The region selected by the source regex on a character list: from
the first opening brace to the last closing brace, inclusive; `none`
when no closing brace follows the first opening brace. -/
def jsonRegionMatch (cs : List Char) : Option (List Char) :=
  match cs.findIdx? (· = '\x7b'), lastIdxOf '\x7d' cs with
  | some i, some j => if i < j then some ((cs.drop i).take (j - i + 1)) else none
  | _, _ => none

/-- The region selected by the source regex on a string. -/
def jsonMatch (s : String) : Option String :=
  (jsonRegionMatch s.toList).map String.mk

/-- Depth-counting scan used by `specFirstBalancedRegion`; the input is
assumed to start at an opening brace. -/
def balancedScan : Nat → List Char → List Char → Option (List Char)
  | _, _, [] => none
  | depth, acc, c :: rest =>
    if c = '\x7b' then balancedScan (depth + 1) (acc ++ [c]) rest
    else if c = '\x7d' then
      if depth = 1 then some (acc ++ [c])
      else balancedScan (depth - 1) (acc ++ [c]) rest
    else balancedScan depth (acc ++ [c]) rest

/-- Modelled from the spec (§4.1 parsing policy), for comparison with the
source behaviour: "the raw completion text is scanned for the first
balanced `\x7b...\x7d` region; that region alone is parsed as JSON". -/
def specFirstBalancedRegion (s : String) : Option String :=
  match s.toList.dropWhile (· ≠ '\x7b') with
  | [] => none
  | l => (balancedScan 0 [] l).map String.mk

/-! ### Capability classifier (`analyzeQuery`) -/

/-- Fallback decision returned when the completion contains no brace
region (delegating-agent.js, `else` branch of the match test). -/
def noMatchFallbackDecision : Decision :=
  { needsChart := false
    needsRAG := true
    needsDirect := false
    reasoning := "Could not parse LLM response, defaulting to RAG" }

/-- Fallback decision returned by the `catch` branch of `analyzeQuery`
(gateway failure or `JSON.parse` throw). -/
def errorFallbackDecision : Decision :=
  { needsChart := false
    needsRAG := true
    needsDirect := false
    reasoning := "Error in analysis, defaulting to RAG" }

/-- `analyzeQuery` (delegating-agent.js): one completion request, regex
region selection, JSON parse; every failure path yields a fallback
decision rather than an error. -/
def analyzeQuery (parseDecision : String → Option Decision)
    (resp : Except String String) : Decision :=
  match resp with
  | .error _ => errorFallbackDecision
  | .ok content =>
    match jsonMatch content with
    | some region =>
      match parseDecision region with
      | some d => d
      | none => errorFallbackDecision
    | none => noMatchFallbackDecision

/-! ### Chart spec extractor (`extractChartParams`, `generateChartConfig`) -/

/-- The fixed placeholder parameters returned by `extractChartParams`
when no region matches or on any thrown error. -/
def placeholderChartParams : ChartParams :=
  { chartType := some "bar"
    title := some "Sample Chart"
    labels := some ["A", "B", "C"]
    data := some [10, 20, 15] }

/-- `extractChartParams` (delegating-agent.js): one completion request,
regex region selection, JSON parse; every failure path yields the
placeholder parameters. -/
def extractChartParams (parseChart : String → Option ChartParams)
    (resp : Except String String) : ChartParams :=
  match resp with
  | .error _ => placeholderChartParams
  | .ok content =>
    match jsonMatch content with
    | some region =>
      match parseChart region with
      | some p => p
      | none => placeholderChartParams
    | none => placeholderChartParams

/-- The fixed color palette of `generateChartConfig`. -/
def chartColors : List String :=
  ["rgba(255, 99, 132, 0.8)"
  , "rgba(54, 162, 235, 0.8)"
  , "rgba(255, 206, 86, 0.8)"
  , "rgba(75, 192, 192, 0.8)"
  , "rgba(153, 102, 255, 0.8)"
  , "rgba(255, 159, 64, 0.8)"]

/-- JavaScript `s || d` for an optional string field: `undefined`, `null`
and the empty string are falsy. -/
def jsOrString (v : Option String) (d : String) : String :=
  match v with
  | none => d
  | some s => if s = "" then d else s

/-- `generateChartConfig` (chartjs-tool.js): builds the Chart.js
configuration, defaulting each missing parameter independently; the
line/bar specific options test the raw `chartType` value. -/
def generateChartConfig (p : ChartParams) : ChartConfig :=
  { type := jsOrString p.chartType "bar"
    labels := p.labels.getD ["Label 1", "Label 2", "Label 3"]
    datasetLabel := jsOrString p.title "Dataset"
    data := p.data.getD [12, 19, 3]
    backgroundColor := chartColors
    borderColor := chartColors.map (fun c => c.replace "0.8" "1")
    borderWidth := 1
    legendPosition := "top"
    titleDisplay := true
    titleText := jsOrString p.title "Chart Title"
    lineStyling := p.chartType = some "line"
    scalesBeginAtZero := p.chartType = some "bar" ∨ p.chartType = some "line" }

/-- `mockGenerateChart` (chartjs-tool.js): direct wrapper around
`generateChartConfig`. -/
def mockGenerateChart (p : ChartParams) : ChartConfig :=
  generateChartConfig p

/-! ### RAG agent (`rag-agent.js`) -/

/-- The two tenant-scoped Weaviate query operations consumed by the RAG
agent: `bm25 query tenant limit` and `fetchObjects tenant limit`. -/
structure Store where
  bm25 : String → String → Nat → Except String (List RetrievedDoc)
  fetchObjects : String → Nat → Except String (List RetrievedDoc)

/-- `retrieveFromWeaviate`: BM25 keyword search in the given tenant with
the given limit; client errors are re-thrown. -/
def retrieveFromWeaviate (store : Store) (query tenant : String) (limit : Nat) :
    Except String (List RetrievedDoc) :=
  store.bm25 query tenant limit

/-- `fetchAllFromWeaviate`: full scan of the tenant, limit 100; client
errors are re-thrown. -/
def fetchAllFromWeaviate (store : Store) (tenant : String) :
    Except String (List RetrievedDoc) :=
  store.fetchObjects tenant 100

/-- The canned answer returned when no documents are retrieved. -/
def noInfoAnswer : String :=
  "I could not find any relevant information in the database to answer your question."

/-- Steps 2–4 of `ragGenerate`, after the retrieved-document list is
fixed: the empty-result canned answer, or one synthesis completion
request.  The second component counts language-model invocations. -/
def ragSynthesis (docs : List RetrievedDoc) (synthesis : Except String String) :
    Except String RagResult × Nat :=
  if docs.isEmpty then
    (.ok { answer := noInfoAnswer, fileIds := [], references := [] }, 0)
  else
    match synthesis with
    | .error e => (.error e, 1)
    | .ok content =>
      (.ok { answer := content
             fileIds := docs.map (·.fileId)
             references := docs.map (fun d =>
               { fileId := d.fileId, question := d.question, answer := d.answer }) }, 1)

/-- `ragGenerate` (rag-agent.js): BM25 retrieval with limit 5, full-scan
fallback when it returns zero documents, then `ragSynthesis`; the
`catch` of the source re-throws, so store and synthesis errors
propagate.  The second component counts language-model invocations. -/
def ragGenerate (store : Store) (synthesis : Except String String)
    (query tenant : String) : Except String RagResult × Nat :=
  match retrieveFromWeaviate store query tenant 5 with
  | .error e => (.error e, 0)
  | .ok primary =>
    if primary.isEmpty then
      match fetchAllFromWeaviate store tenant with
      | .error e => (.error e, 0)
      | .ok docs => ragSynthesis docs synthesis
    else ragSynthesis primary synthesis

/-! ### Delegating agent (`delegateQuery`) -/

/-- `handleDirectAnswer` (delegating-agent.js): a single untethered
completion request; its error is not caught. -/
def handleDirectAnswer (resp : Except String String) : Except String Response :=
  match resp with
  | .error e => .error e
  | .ok content =>
    .ok { answer := content, fileIds := [], references := [], chartConfig := none }

/-- The tagged objects pushed by the task list of `delegateQuery`
(objects with a type tag of rag, chart or direct, plus a data payload). -/
inductive TaggedResult where
  | rag : RagResult → TaggedResult
  | chart : ChartConfig → TaggedResult
  | direct : Response → TaggedResult
  deriving DecidableEq, Repr

/-- All external collaborators of one `delegateQuery` call: the four
gateway completions (classifier, chart extraction, direct answer, RAG
synthesis), the two host JSON parsers, and the Weaviate store. -/
structure Oracles where
  classifierResp : Except String String
  parseDecision : String → Option Decision
  chartResp : Except String String
  parseChartParams : String → Option ChartParams
  directResp : Except String String
  synthesisResp : Except String String
  store : Store

/-- The task list built by `delegateQuery` in source order: RAG if
`needsRAG`, chart if `needsChart`, direct only if `needsDirect` and
neither of the others.  The chart task cannot reject
(`extractChartParams` absorbs its failures and `mockGenerateChart` is
pure). -/
def scheduledTasks (o : Oracles) (decision : Decision) (query tenant : String) :
    List (Except String TaggedResult) :=
  (if decision.needsRAG then
    [(ragGenerate o.store o.synthesisResp query tenant).1.map TaggedResult.rag]
   else [])
  ++ (if decision.needsChart then
    [.ok (TaggedResult.chart (mockGenerateChart
      (extractChartParams o.parseChartParams o.chartResp)))]
   else [])
  ++ (if decision.needsDirect && !decision.needsRAG && !decision.needsChart then
    [(handleDirectAnswer o.directResp).map TaggedResult.direct]
   else [])

/-- `Promise.all` over the task list, modelled as a left-to-right join:
all values in task order, or the first error in task order. -/
def promiseAll {α : Type} : List (Except String α) → Except String (List α)
  | [] => .ok []
  | t :: ts =>
    match t with
    | .error e => .error e
    | .ok v => (promiseAll ts).map (v :: ·)

/-- The message of the first failed task, if any. -/
def firstTaskError {α : Type} (ts : List (Except String α)) : Option String :=
  ts.findSome? (fun t => match t with | .error e => some e | .ok _ => none)

/-- The result-combination step of `delegateQuery` (lines 226–267):
assign each tagged result to its slot (last write per tag wins, as with
the `forEach` of the source), then build the response by the fixed
precedence chain rag+chart / rag / chart / direct / fallback. -/
def combineResults (results : List TaggedResult) : Response :=
  let slots := results.foldl
    (fun (s : Option RagResult × Option ChartConfig × Option Response) r =>
      match r with
      | .rag d => (some d, s.2.1, s.2.2)
      | .chart d => (s.1, some d, s.2.2)
      | .direct d => (s.1, s.2.1, some d))
    (none, none, none)
  match slots.1, slots.2.1, slots.2.2 with
  | some ragData, some chartData, _ =>
    { answer := ragData.answer ++
        "\n\nI\x27ve also generated a chart visualization for you."
      fileIds := ragData.fileIds
      references := ragData.references
      chartConfig := some chartData }
  | some ragData, none, _ =>
    { answer := ragData.answer
      fileIds := ragData.fileIds
      references := ragData.references
      chartConfig := none }
  | none, some chartData, _ =>
    { answer := "I\x27ve generated the chart visualization as requested."
      fileIds := []
      references := []
      chartConfig := some chartData }
  | none, none, some directData =>
    { answer := directData.answer
      fileIds := []
      references := []
      chartConfig := none }
  | none, none, none =>
    { answer := "I\x27m not sure how to handle this query. Could you please rephrase it?"
      fileIds := []
      references := []
      chartConfig := none }

/-- `delegateQuery` (delegating-agent.js): classify, schedule, join,
combine; the surrounding `try`/`catch` re-throws, so a failed task
fails the whole call. -/
def delegateQuery (o : Oracles) (query tenant : String) : Except String Response :=
  let decision := analyzeQuery o.parseDecision o.classifierResp
  match promiseAll (scheduledTasks o decision query tenant) with
  | .error e => .error e
  | .ok results => .ok (combineResults results)

/-! ### Agent graph (`agent-graph.js`) -/

/-- The LangGraph channel state.  `metadataProcessed` stands for the
`processed: true` marker written on success (the timestamp strings of
the metadata of the source are wall-clock values outside the model). -/
structure AgentState where
  query : String
  tenant : String
  answer : String
  fileIds : List String
  references : List Reference
  chartConfig : Option ChartConfig
  error : Option String
  metadataProcessed : Bool
  deriving DecidableEq, Repr

/-- The fixed answer written by the catch branch of `delegatingNode`. -/
def nodeErrorAnswer : String :=
  "I encountered an error processing your request. Please try again."

/-- `delegatingNode` (agent-graph.js): run `delegateQuery`; on success
copy its fields into the state, on failure record the error message and
the fixed apology answer, leaving every other field unchanged. -/
def delegatingNode (o : Oracles) (state : AgentState) : AgentState :=
  match delegateQuery o state.query state.tenant with
  | .ok result =>
    { state with
      answer := result.answer
      fileIds := result.fileIds
      references := result.references
      chartConfig := result.chartConfig
      metadataProcessed := true }
  | .error msg =>
    { state with
      error := some msg
      answer := nodeErrorAnswer }

/-- The initial state built by `runAgentGraph`. -/
def initialAgentState (query tenant : String) : AgentState :=
  { query := query
    tenant := tenant
    answer := ""
    fileIds := []
    references := []
    chartConfig := none
    error := none
    metadataProcessed := false }

/-- `runAgentGraph` (agent-graph.js): the compiled graph is
START → delegating_agent → END with last-write-wins channels, so one
invocation applies `delegatingNode` to the initial state.  The function
is total: a `delegateQuery` failure is converted into state fields, not
re-thrown. -/
def runAgentGraph (o : Oracles) (query tenant : String) : AgentState :=
  delegatingNode o (initialAgentState query tenant)

/-! ### Theorems -/

/-- Helper: the left-to-right join rejects with the message of the
first failed task. -/
theorem promiseAll_eq_error {α : Type} (ts : List (Except String α)) (e : String)
    (h : firstTaskError ts = some e) : promiseAll ts = .error e := by
  induction ts with
  | nil => simp [firstTaskError] at h
  | cons t ts ih =>
    cases t with
    | error e' =>
      simp [firstTaskError, List.findSome?] at h
      simp [promiseAll, h]
    | ok v =>
      simp only [firstTaskError, List.findSome?] at h
      have := ih h
      simp [promiseAll, this, Except.map]

/-- C4: when both the primary BM25 search and the full-scan fallback
return zero documents, `ragGenerate` returns the fixed canned answer
with empty `fileIds` and `references`, and performs no language-model
invocation (count 0), for every possible synthesis completion. -/
theorem rag_empty_result_policy (store : Store) (synthesis : Except String String)
    (query tenant : String)
    (hprimary : store.bm25 query tenant 5 = .ok [])
    (hfallback : store.fetchObjects tenant 100 = .ok []) :
    ragGenerate store synthesis query tenant =
      (.ok { answer := noInfoAnswer, fileIds := [], references := [] }, 0) := by
  simp [ragGenerate, retrieveFromWeaviate, fetchAllFromWeaviate, hprimary, hfallback,
    ragSynthesis]

/-- Witness for C4: a concrete store with no documents in either search. -/
theorem rag_empty_result_policy_witness :
    ragGenerate ⟨fun _ _ _ => .ok [], fun _ _ => .ok []⟩ (.ok "unused") "q" "tenant1" =
      (.ok { answer := noInfoAnswer, fileIds := [], references := [] }, 0) :=
  rag_empty_result_policy ⟨fun _ _ _ => .ok [], fun _ _ => .ok []⟩ (.ok "unused")
    "q" "tenant1" rfl rfl

/-- C5: the result-combination step is order-independent over a pair of
retrieval- and chart-tagged results: both input orders produce the
identical `Response` (same answer, fileIds, references, chartConfig),
because results are keyed by variant tag rather than array position. -/
theorem merge_order_independent (r : RagResult) (c : ChartConfig) :
    combineResults [TaggedResult.rag r, TaggedResult.chart c] =
      combineResults [TaggedResult.chart c, TaggedResult.rag r] := rfl

/-- Witness for C5 at a concrete pair of tagged results. -/
theorem merge_order_independent_witness :
    combineResults [TaggedResult.rag ⟨"a", ["F1"], [⟨"F1", "q", "x"⟩]⟩,
        TaggedResult.chart (generateChartConfig placeholderChartParams)] =
      combineResults [TaggedResult.chart (generateChartConfig placeholderChartParams),
        TaggedResult.rag ⟨"a", ["F1"], [⟨"F1", "q", "x"⟩]⟩] :=
  merge_order_independent ⟨"a", ["F1"], [⟨"F1", "q", "x"⟩]⟩
    (generateChartConfig placeholderChartParams)

/-- C6: if any scheduled capability task fails, `delegateQuery` fails as
a whole with the first error encountered (in scheduling order); it
never returns a partially filled `Response` as a success.  In
particular a synthesis failure inside `ragGenerate` propagates to the
caller. -/
theorem orchestration_fails_on_task_error (o : Oracles) (query tenant e : String)
    (h : firstTaskError (scheduledTasks o
        (analyzeQuery o.parseDecision o.classifierResp) query tenant) = some e) :
    delegateQuery o query tenant = .error e := by
  have hall := promiseAll_eq_error _ _ h
  simp [delegateQuery, hall]

/-- Witness for C6: a retrieval-routed query whose synthesis completion
fails with "llm down"; the whole orchestration call fails with exactly
that message. -/
theorem orchestration_fails_on_task_error_witness :
    delegateQuery
      { classifierResp := .ok "\x7bx\x7d"
        parseDecision := fun _ => some ⟨false, true, false, "routing"⟩
        chartResp := .ok ""
        parseChartParams := fun _ => none
        directResp := .ok ""
        synthesisResp := .error "llm down"
        store := ⟨fun _ _ _ => .ok [⟨"F1", "q1", "a1"⟩], fun _ _ => .ok []⟩ }
      "q" "tenant1" = .error "llm down" :=
  orchestration_fails_on_task_error
    { classifierResp := .ok "\x7bx\x7d"
      parseDecision := fun _ => some ⟨false, true, false, "routing"⟩
      chartResp := .ok ""
      parseChartParams := fun _ => none
      directResp := .ok ""
      synthesisResp := .error "llm down"
      store := ⟨fun _ _ _ => .ok [⟨"F1", "q1", "a1"⟩], fun _ _ => .ok []⟩ }
    "q" "tenant1" "llm down" (by decide)

/-- C8: `ragGenerate` first runs the tenant-scoped BM25 search with
limit 5; exactly when it returns zero documents the full scan of the tenant
with limit 100 supplies the document set instead; when the primary
search returned at least one document the result does not depend on the
full-scan operation at all (the fallback is never consulted). -/
theorem retrieval_fallback_policy (store : Store)
    (g : String → Nat → Except String (List RetrievedDoc))
    (synthesis : Except String String) (query tenant : String)
    (docs : List RetrievedDoc)
    (h : store.bm25 query tenant 5 = .ok docs) :
    (docs ≠ [] →
      ragGenerate store synthesis query tenant = ragSynthesis docs synthesis ∧
      ragGenerate { store with fetchObjects := g } synthesis query tenant =
        ragSynthesis docs synthesis) ∧
    (docs = [] →
      ragGenerate store synthesis query tenant =
        (match store.fetchObjects tenant 100 with
         | .error e => (.error e, 0)
         | .ok ds => ragSynthesis ds synthesis)) := by
  constructor
  · intro hne
    cases docs with
    | nil => exact absurd rfl hne
    | cons d ds =>
      exact ⟨by simp [ragGenerate, retrieveFromWeaviate, h],
        by simp [ragGenerate, retrieveFromWeaviate, h]⟩
  · rintro rfl
    simp [ragGenerate, retrieveFromWeaviate, fetchAllFromWeaviate, h]

/-- Witness for C8: a store whose primary search returns one document;
the result equals the synthesis step on that document. -/
theorem retrieval_fallback_policy_witness :
    ragGenerate ⟨fun _ _ _ => .ok [⟨"F1", "q1", "a1"⟩], fun _ _ => .ok []⟩
        (.ok "ans") "q" "tenant1" =
      ragSynthesis [⟨"F1", "q1", "a1"⟩] (.ok "ans") :=
  ((retrieval_fallback_policy ⟨fun _ _ _ => .ok [⟨"F1", "q1", "a1"⟩], fun _ _ => .ok []⟩
    (fun _ _ => .error "never") (.ok "ans") "q" "tenant1" [⟨"F1", "q1", "a1"⟩] rfl).1
    (by decide)).1

/-- C9: on a successful synthesis over a non-empty retrieved list,
`ragGenerate` returns `fileIds` as the ordered, duplicate-preserving
list of document identifiers and `references` as the matching ordered
triples; both have the length of the retrieved list and agree on `fileId` at
every index. -/
theorem rag_references_mirror (store : Store) (query tenant ans : String)
    (docs : List RetrievedDoc) (r : RagResult)
    (hbm : store.bm25 query tenant 5 = .ok docs) (hne : docs ≠ [])
    (hr : (ragGenerate store (.ok ans) query tenant).1 = .ok r) :
    r.answer = ans ∧
    r.fileIds = docs.map (·.fileId) ∧
    r.references = docs.map (fun d => ⟨d.fileId, d.question, d.answer⟩) ∧
    r.fileIds.length = docs.length ∧
    r.references.length = docs.length ∧
    ∀ i, i < docs.length →
      r.fileIds.getD i "" = (r.references.getD i ⟨"", "", ""⟩).fileId := by
  cases docs with
  | nil => exact absurd rfl hne
  | cons d ds =>
    have hrun : (ragGenerate store (.ok ans) query tenant).1 =
        .ok { answer := ans
              fileIds := (d :: ds).map (·.fileId)
              references := (d :: ds).map (fun x => ⟨x.fileId, x.question, x.answer⟩) } := by
      simp [ragGenerate, retrieveFromWeaviate, hbm, ragSynthesis]
    rw [hrun] at hr
    injection hr with hr
    subst hr
    refine ⟨rfl, rfl, rfl, by simp, by simp, ?_⟩
    intro i hi
    have h1 : i < ((d :: ds).map (·.fileId)).length := by simpa using hi
    have h2 : i < ((d :: ds).map (fun x =>
        (⟨x.fileId, x.question, x.answer⟩ : Reference))).length := by simpa using hi
    rw [List.getD_eq_getElem _ _ h1, List.getD_eq_getElem _ _ h2]
    simp only [List.getElem_map]

/-- Witness for C9: two documents sharing the identifier "F1"; the
duplicate is preserved in the returned identifier list. -/
theorem rag_references_mirror_witness :
    (⟨"syn", ["F1", "F1"], [⟨"F1", "q1", "a1"⟩, ⟨"F1", "q2", "a2"⟩]⟩ : RagResult).fileIds
        = ([⟨"F1", "q1", "a1"⟩, ⟨"F1", "q2", "a2"⟩] : List RetrievedDoc).map (·.fileId) :=
  (rag_references_mirror
    ⟨fun _ _ _ => .ok [⟨"F1", "q1", "a1"⟩, ⟨"F1", "q2", "a2"⟩], fun _ _ => .ok []⟩
    "q" "tenant1" "syn" [⟨"F1", "q1", "a1"⟩, ⟨"F1", "q2", "a2"⟩]
    ⟨"syn", ["F1", "F1"], [⟨"F1", "q1", "a1"⟩, ⟨"F1", "q2", "a2"⟩]⟩
    rfl (by decide) rfl).2.1

/-- C10: whenever `delegateQuery` throws, `runAgentGraph` still returns
normally with a state whose `error` field is the thrown message, whose
`answer` is the fixed apology text, and whose `fileIds`, `references`
and `chartConfig` keep their initial empty/null values. -/
theorem graph_error_boundary (o : Oracles) (query tenant msg : String)
    (h : delegateQuery o query tenant = .error msg) :
    runAgentGraph o query tenant =
      { query := query
        tenant := tenant
        answer := nodeErrorAnswer
        fileIds := []
        references := []
        chartConfig := none
        error := some msg
        metadataProcessed := false } := by
  simp [runAgentGraph, delegatingNode, initialAgentState, h]

/-- Witness for C10: a retrieval-routed query whose store search throws
"db down"; the graph run resolves with the error recorded in the state. -/
theorem graph_error_boundary_witness :
    runAgentGraph
      { classifierResp := .ok "\x7bx\x7d"
        parseDecision := fun _ => some ⟨false, true, false, "routing"⟩
        chartResp := .ok ""
        parseChartParams := fun _ => none
        directResp := .ok ""
        synthesisResp := .ok ""
        store := ⟨fun _ _ _ => .error "db down", fun _ _ => .ok []⟩ }
      "q" "tenant1" =
      { query := "q"
        tenant := "tenant1"
        answer := nodeErrorAnswer
        fileIds := []
        references := []
        chartConfig := none
        error := some "db down"
        metadataProcessed := false } :=
  graph_error_boundary
    { classifierResp := .ok "\x7bx\x7d"
      parseDecision := fun _ => some ⟨false, true, false, "routing"⟩
      chartResp := .ok ""
      parseChartParams := fun _ => none
      directResp := .ok ""
      synthesisResp := .ok ""
      store := ⟨fun _ _ _ => .error "db down", fun _ _ => .ok []⟩ }
    "q" "tenant1" "db down" rfl

/-- C1, counterexample: a completion whose JSON region parses to labels
of length 2 and data of length 3 flows through `extractChartParams` and
`mockGenerateChart` unmodified — the returned configuration has
mismatched label/data lengths and is not the 3-point placeholder. -/
theorem chart_length_mismatch_counterexample :
    (mockGenerateChart (extractChartParams
        (fun _ => some { chartType := some "bar", title := some "T",
                         labels := some ["A", "B"], data := some [10, 20, 15] })
        (.ok "\x7ba\x7d"))).labels.length = 2 ∧
    (mockGenerateChart (extractChartParams
        (fun _ => some { chartType := some "bar", title := some "T",
                         labels := some ["A", "B"], data := some [10, 20, 15] })
        (.ok "\x7ba\x7d"))).data.length = 3 ∧
    mockGenerateChart (extractChartParams
        (fun _ => some { chartType := some "bar", title := some "T",
                         labels := some ["A", "B"], data := some [10, 20, 15] })
        (.ok "\x7ba\x7d")) ≠ generateChartConfig placeholderChartParams := by
  refine ⟨rfl, rfl, ?_⟩
  decide

/-- C1, amended: the extractor performs no length check — whenever the
completion has a brace region that parses, the parsed parameters pass
through to the chart configuration unchanged, and the resulting label
and data lengths are equal exactly when the (defaulted) extracted pair
already had equal lengths; the placeholder appears only on the
no-region / parse-failure / gateway-failure paths. -/
theorem chart_passthrough_amended (parse : String → Option ChartParams)
    (text region : String) (p : ChartParams)
    (hregion : jsonMatch text = some region) (hparse : parse region = some p) :
    mockGenerateChart (extractChartParams parse (.ok text)) = generateChartConfig p ∧
    ((mockGenerateChart (extractChartParams parse (.ok text))).labels.length =
        (mockGenerateChart (extractChartParams parse (.ok text))).data.length ↔
      (p.labels.getD ["Label 1", "Label 2", "Label 3"]).length =
        (p.data.getD [12, 19, 3]).length) := by
  have he : extractChartParams parse (.ok text) = p := by
    simp [extractChartParams, hregion, hparse]
  rw [he]
  exact ⟨rfl, Iff.rfl⟩

/-- Witness for the amended statement of C1: a parsed pie-chart parameter
object passes through unchanged. -/
theorem chart_passthrough_amended_witness :
    mockGenerateChart (extractChartParams
        (fun _ => some ⟨some "pie", some "T", some ["X"], some [1, 2]⟩)
        (.ok "\x7bz\x7d")) =
      generateChartConfig ⟨some "pie", some "T", some ["X"], some [1, 2]⟩ :=
  (chart_passthrough_amended
    (fun _ => some ⟨some "pie", some "T", some ["X"], some [1, 2]⟩)
    "\x7bz\x7d" "\x7bz\x7d" ⟨some "pie", some "T", some ["X"], some [1, 2]⟩
    (by decide) rfl).1

/-- C2, counterexample: on the completion text
`\x7b"a":1\x7d trailing \x7b"b":2\x7d` the source regex selects the whole
span from the first opening brace to the last closing brace, which is
not the first balanced region `\x7b"a":1\x7d` that the claim names. -/
theorem greedy_region_counterexample :
    jsonMatch "\x7b\x22a\x22:1\x7d trailing \x7b\x22b\x22:2\x7d" =
      some "\x7b\x22a\x22:1\x7d trailing \x7b\x22b\x22:2\x7d" ∧
    specFirstBalancedRegion "\x7b\x22a\x22:1\x7d trailing \x7b\x22b\x22:2\x7d" =
      some "\x7b\x22a\x22:1\x7d" ∧
    ("\x7b\x22a\x22:1\x7d trailing \x7b\x22b\x22:2\x7d" : String) ≠
      "\x7b\x22a\x22:1\x7d" := by
  refine ⟨by decide, by decide, by decide⟩

/-- C2, amended: both the classifier and the chart extractor select the
greedy region of the completion text — from its first opening brace to
its last closing brace — and parse exactly that region alone; the
candidate is a function only of the completion text. -/
theorem greedy_region_amended (parseD : String → Option Decision)
    (parseC : String → Option ChartParams) (text region : String)
    (h : jsonMatch text = some region) :
    analyzeQuery parseD (.ok text) =
      (match parseD region with
       | some d => d
       | none => errorFallbackDecision) ∧
    extractChartParams parseC (.ok text) =
      (match parseC region with
       | some p => p
       | none => placeholderChartParams) ∧
    ∀ i j, text.toList.findIdx? (· = '\x7b') = some i →
      lastIdxOf '\x7d' text.toList = some j →
      region.toList = (text.toList.drop i).take (j - i + 1) := by
  refine ⟨by simp [analyzeQuery, h], by simp [extractChartParams, h], ?_⟩
  intro i j hi hj
  unfold jsonMatch jsonRegionMatch at h
  rw [hi, hj] at h
  by_cases hij : i < j
  · simp only [hij, if_true, Option.map_some] at h
    obtain rfl := (Option.some.injEq _ _).mp h.symm
    rfl
  · simp [hij] at h

/-- Witness for the amended statement of C2: on the named example text the
classifier hands the whole greedy span to the JSON parser, and a parser
rejecting it yields the catch-branch fallback decision. -/
theorem greedy_region_amended_witness :
    analyzeQuery (fun _ => none)
        (.ok "\x7b\x22a\x22:1\x7d trailing \x7b\x22b\x22:2\x7d") =
      errorFallbackDecision :=
  (greedy_region_amended (fun _ => none) (fun _ => none)
    "\x7b\x22a\x22:1\x7d trailing \x7b\x22b\x22:2\x7d"
    "\x7b\x22a\x22:1\x7d trailing \x7b\x22b\x22:2\x7d" (by decide)).1

/-- C3, counterexample: on a completion with no brace region the
decision of the classifier carries reasoning "Could not parse LLM response,
defaulting to RAG", not "fallback", and it differs from the decision
returned on a gateway failure — there is no single fixed fallback
`Decision`. -/
theorem classifier_fallback_counterexample :
    (analyzeQuery (fun _ => none) (.ok "no json here")).reasoning ≠ "fallback" ∧
    analyzeQuery (fun _ => none) (.ok "no json here") ≠
      analyzeQuery (fun _ => none) (.error "gateway down") := by
  refine ⟨by decide, by decide⟩

/-- C3, amended: in all three failure cases — gateway failure, no brace
region, JSON parse failure — `analyzeQuery` returns a fallback decision
with needsRAG true, needsChart false and needsDirect false, and never
propagates an error; the reasoning string is the no-match message or the
catch-branch message, depending on the path. -/
theorem classifier_fallback_amended (parse : String → Option Decision)
    (resp : Except String String)
    (h : (∃ e, resp = .error e) ∨
         (∃ t, resp = .ok t ∧ jsonMatch t = none) ∨
         (∃ t r, resp = .ok t ∧ jsonMatch t = some r ∧ parse r = none)) :
    (analyzeQuery parse resp).needsRAG = true ∧
    (analyzeQuery parse resp).needsChart = false ∧
    (analyzeQuery parse resp).needsDirect = false ∧
    (analyzeQuery parse resp = noMatchFallbackDecision ∨
      analyzeQuery parse resp = errorFallbackDecision) := by
  rcases h with ⟨e, rfl⟩ | ⟨t, rfl, ht⟩ | ⟨t, r, rfl, ht, hr⟩
  · simp [analyzeQuery, errorFallbackDecision]
  · simp [analyzeQuery, ht, noMatchFallbackDecision]
  · simp [analyzeQuery, ht, hr, errorFallbackDecision]

/-- Witness for the amended statement of C3 at a concrete gateway failure. -/
theorem classifier_fallback_amended_witness :
    (analyzeQuery (fun _ => none) (.error "boom")).needsRAG = true ∧
    (analyzeQuery (fun _ => none) (.error "boom")).needsChart = false ∧
    (analyzeQuery (fun _ => none) (.error "boom")).needsDirect = false ∧
    (analyzeQuery (fun _ => none) (.error "boom") = noMatchFallbackDecision ∨
      analyzeQuery (fun _ => none) (.error "boom") = errorFallbackDecision) :=
  classifier_fallback_amended (fun _ => none) (.error "boom") (Or.inl ⟨"boom", rfl⟩)

/-- C7: a successful `delegateQuery` response carries a chart
configuration only if charting was selected, and non-empty references
or fileIds only if retrieval was selected (stated contrapositively: an
unselected capability leaves its fields null/empty). -/
theorem response_capability_invariants (o : Oracles) (query tenant : String)
    (resp : Response) (h : delegateQuery o query tenant = .ok resp) :
    ((analyzeQuery o.parseDecision o.classifierResp).needsChart = false →
      resp.chartConfig = none) ∧
    ((analyzeQuery o.parseDecision o.classifierResp).needsRAG = false →
      resp.references = [] ∧ resp.fileIds = []) := by
  simp only [delegateQuery] at h
  cases hC : (analyzeQuery o.parseDecision o.classifierResp).needsChart <;>
    cases hR : (analyzeQuery o.parseDecision o.classifierResp).needsRAG <;>
      cases hD : (analyzeQuery o.parseDecision o.classifierResp).needsDirect
  · simp only [scheduledTasks, hC, hR, hD] at h
    simp [promiseAll, combineResults] at h
    subst h
    simp
  · simp only [scheduledTasks, hC, hR, hD] at h
    cases hdir : o.directResp with
    | error e =>
      simp [promiseAll, handleDirectAnswer, hdir, Except.map] at h
    | ok content =>
      simp [promiseAll, handleDirectAnswer, hdir, Except.map, combineResults] at h
      subst h
      simp
  · simp only [scheduledTasks, hC, hR, hD] at h
    cases hrag : (ragGenerate o.store o.synthesisResp query tenant).1 with
    | error e => simp [promiseAll, hrag, Except.map] at h
    | ok r =>
      simp [promiseAll, hrag, Except.map, combineResults] at h
      subst h
      simp
  · simp only [scheduledTasks, hC, hR, hD] at h
    cases hrag : (ragGenerate o.store o.synthesisResp query tenant).1 with
    | error e => simp [promiseAll, hrag, Except.map] at h
    | ok r =>
      simp [promiseAll, hrag, Except.map, combineResults] at h
      subst h
      simp
  · simp only [scheduledTasks, hC, hR, hD] at h
    simp [promiseAll, combineResults, Except.map] at h
    subst h
    simp
  · simp only [scheduledTasks, hC, hR, hD] at h
    simp [promiseAll, combineResults, Except.map] at h
    subst h
    simp
  · simp
  · simp

/-- Witness for C7: a hand-constructed all-false decision yields the
unroutable fallback response with null chart and empty references. -/
theorem response_capability_invariants_witness :
    ((analyzeQuery
        (fun _ => some ⟨false, false, false, "none"⟩)
        (Except.ok "\x7bx\x7d")).needsChart = false →
      (⟨"I\x27m not sure how to handle this query. Could you please rephrase it?",
        [], [], none⟩ : Response).chartConfig = none) ∧
    ((analyzeQuery
        (fun _ => some ⟨false, false, false, "none"⟩)
        (Except.ok "\x7bx\x7d")).needsRAG = false →
      (⟨"I\x27m not sure how to handle this query. Could you please rephrase it?",
        [], [], none⟩ : Response).references = [] ∧
      (⟨"I\x27m not sure how to handle this query. Could you please rephrase it?",
        [], [], none⟩ : Response).fileIds = []) :=
  response_capability_invariants
    { classifierResp := .ok "\x7bx\x7d"
      parseDecision := fun _ => some ⟨false, false, false, "none"⟩
      chartResp := .ok ""
      parseChartParams := fun _ => none
      directResp := .ok ""
      synthesisResp := .ok ""
      store := ⟨fun _ _ _ => .ok [], fun _ _ => .ok []⟩ }
    "q" "tenant1"
    ⟨"I\x27m not sure how to handle this query. Could you please rephrase it?",
      [], [], none⟩ rfl

end AgentSystem
